import Mathlib

/-!
Verification of the customer management view (`client/src/pages/customers.tsx`).

The file shallowly embeds the pure logic of the view: the JavaScript number
parsing and formatting used by the debt indicator (modelled over `ℚ`, the
idealisation being that JavaScript doubles are rationals; `NaN` is `none`),
the debt classification, the delete-mutation success/error handlers, the
delete-workflow state machine, and the three-way list rendering.
-/

namespace Customers

/-! ## JavaScript primitives used by the component -/

/-- Character of a single decimal digit: `digitChar n` is the character of
`n % 10`. -/
def digitChar (n : ℕ) : Char := Char.ofNat (48 + n % 10)

/-- Value of a decimal digit character. -/
def digitVal (c : Char) : ℕ := c.toNat - 48

/-- Numeric value of a list of decimal digit characters (most significant
first), as accumulated left to right. -/
def digitsToNat (ds : List Char) : ℕ := ds.foldl (fun a c => 10 * a + digitVal c) 0

/-- Value contributed by the digits after the decimal point. -/
def decFraction (ds : List Char) : ℚ := (digitsToNat ds : ℚ) / ((10 : ℚ) ^ ds.length)

/-- Exponent part after an `e`/`E` marker: optional sign then digits; `none`
when no digits follow (JavaScript then ignores the exponent marker). -/
def parseSignedExp (cs : List Char) : Option ℤ :=
  let signed : ℤ × List Char :=
    match cs with
    | '-' :: r => (-1, r)
    | '+' :: r => (1, r)
    | _ => (1, cs)
  let ds := signed.2.takeWhile Char.isDigit
  if ds.isEmpty then none else some (signed.1 * (digitsToNat ds : ℤ))

/-- Optional exponent marker of a decimal literal. -/
def parseExponent (cs : List Char) : Option ℤ :=
  match cs with
  | 'e' :: rest => parseSignedExp rest
  | 'E' :: rest => parseSignedExp rest
  | _ => none

/-- Unsigned part of a JavaScript decimal literal: integer digits, optional
fractional digits, optional exponent; `none` when there is no digit at all
(JavaScript `NaN`). -/
def parseUnsigned (cs : List Char) : Option ℚ :=
  let intDs := cs.takeWhile Char.isDigit
  let rest1 := cs.drop intDs.length
  let fracDs :=
    match rest1 with
    | '.' :: r => r.takeWhile Char.isDigit
    | _ => []
  let rest2 :=
    match rest1 with
    | '.' :: r => r.drop (r.takeWhile Char.isDigit).length
    | _ => rest1
  if intDs.isEmpty && fracDs.isEmpty then none
  else
    let mantissa : ℚ := (digitsToNat intDs : ℚ) + decFraction fracDs
    match parseExponent rest2 with
    | some e => some (mantissa * (10 : ℚ) ^ e)
    | none => some mantissa

/-- Whitespace skipped by `parseFloat`. -/
def jsWhitespace (c : Char) : Bool := c = ' ' || c = '\t' || c = '\n' || c = '\r'

/-- Model of JavaScript `parseFloat` over exact rationals: skips leading
whitespace, reads an optional sign and then the longest decimal-literal
prefix; `none` models `NaN`. The `Infinity` literal and double rounding are
outside the rational model (an `Infinity` input is treated as unparsable). -/
def parseFloat (s : String) : Option ℚ :=
  let cs := s.data.dropWhile jsWhitespace
  match cs with
  | '-' :: rest => (parseUnsigned rest).map (fun q => -q)
  | '+' :: rest => parseUnsigned rest
  | _ => parseUnsigned cs

/-- Decimal representation of a natural number, most significant digit first
(fuel-based recursion on the first argument). -/
def natDigitsAux : ℕ → ℕ → List Char
  | 0, _ => []
  | fuel + 1, n => if n = 0 then [] else natDigitsAux fuel (n / 10) ++ [digitChar n]

/-- Decimal string of a natural number. -/
def natRepr (n : ℕ) : String := if n = 0 then "0" else String.mk (natDigitsAux (n + 1) n)

/-- Two-digit, zero-padded representation of `f % 100`. -/
def pad2 (f : ℕ) : String := String.mk [digitChar (f / 10), digitChar f]

/-- Model of JavaScript `Number.prototype.toFixed(2)` over exact rationals:
the magnitude is scaled to cents, rounded half away from zero, and printed
with exactly two digits after the decimal point. -/
def toFixed2 (q : ℚ) : String :=
  let cents : ℕ := (⌊|q| * 100 + 1 / 2⌋).toNat
  (if q < 0 ∧ cents ≠ 0 then "-" else "") ++ natRepr (cents / 100) ++ "." ++ pad2 (cents % 100)

/-! ## Debt classification (lines 124–133 and 275–309 of the source) -/

/-- Rendered debt indicator box of a customer card: the three class strings
chosen by the `>= 5000` ternaries, the `toFixed(2)` amount, and whether the
overage notice paragraph is rendered. -/
structure DebtBox where
  boxClass : String
  iconClass : String
  textClass : String
  amountText : String
  overageNote : Bool
  deriving Repr, DecidableEq

/-- Translation of the debt-indicator render (lines 275–309): the box is
rendered only when `totalDebt` is truthy (present and nonempty) and parses
to a positive number; every class and the overage paragraph switch on
`parseFloat(totalDebt) >= 5000`. -/
def renderDebtIndicator (totalDebt : Option String) : Option DebtBox :=
  match totalDebt with
  | none => none
  | some s =>
    if s = "" then none
    else
      match parseFloat s with
      | none => none
      | some q =>
        if 0 < q then
          some
            { boxClass := if 5000 ≤ q then "bg-red-50 border border-red-200"
                else "bg-yellow-50 border border-yellow-200"
              iconClass := if 5000 ≤ q then "text-red-500" else "text-yellow-500"
              textClass := if 5000 ≤ q then "text-red-700 font-semibold" else "text-yellow-700"
              amountText := toFixed2 q
              overageNote := decide (5000 ≤ q) }
        else none

/-- Parsed value of the debt field: `parseFloat` of the text when present. -/
def parsedDebt (totalDebt : Option String) : Option ℚ := totalDebt.bind parseFloat

/-- Written from the specification's words: classification(d) is critical
(red box, overage notice) when `d >= 5000`, warning (yellow box, no notice)
when `0 < d < 5000`, and no indicator when `d` is absent, unparsable, zero
or negative; the amount is formatted with two decimals. Compared against
`renderDebtIndicator`. -/
def specDebtBox (parsed : Option ℚ) : Option DebtBox :=
  match parsed with
  | none => none
  | some q =>
    if 5000 ≤ q then
      some ⟨"bg-red-50 border border-red-200", "text-red-500", "text-red-700 font-semibold",
        toFixed2 q, true⟩
    else if 0 < q then
      some ⟨"bg-yellow-50 border border-yellow-200", "text-yellow-500", "text-yellow-700",
        toFixed2 q, false⟩
    else none

/-- A string consisting of an integer part, a point, and exactly two further
characters none of which is another point. -/
def hasTwoDecimals (s : String) : Prop :=
  ∃ a b, s = a ++ "." ++ b ∧ b.length = 2 ∧ '.' ∉ b.data

/-- Input type of the `getDebtStatusColor` helper, `string | number |
undefined`; a number is `none` when it is `NaN`. -/
inductive JsDebtInput where
  | undef : JsDebtInput
  | str (s : String) : JsDebtInput
  | num (n : Option ℚ) : JsDebtInput
  deriving Repr, DecidableEq

/-- JavaScript truthiness test `!debt` on the helper's input: `undefined`,
the empty string, `0` and `NaN` are falsy. -/
def jsFalsyDebt : JsDebtInput → Bool
  | .undef => true
  | .str s => s = ""
  | .num none => true
  | .num (some q) => q = 0

/-- Parsed numeric value the helper compares against the threshold. -/
def helperParsed : JsDebtInput → Option ℚ
  | .undef => none
  | .str s => parseFloat s
  | .num n => n

/-- Translation of `getDebtStatusColor` (lines 124–133): falsy input yields
yellow, a string is parsed with `parseFloat`, `NaN` yields yellow, and the
result is red exactly on `>= 5000`. -/
def getDebtStatusColor (debt : JsDebtInput) : String :=
  if jsFalsyDebt debt then "border-yellow-500 text-yellow-500"
  else
    match (match debt with
           | .str s => parseFloat s
           | .num n => n
           | .undef => none) with
    | none => "border-yellow-500 text-yellow-500"
    | some q =>
      if 5000 ≤ q then "border-red-500 text-red-500" else "border-yellow-500 text-yellow-500"

/-! ## Data model and card rendering -/

/-- Customer record as used by the view (`id`, `name`, optional contact
fields, `isActive`, a textual `totalDebt` that may be absent, and a creation
timestamp kept as raw text). -/
structure Customer where
  id : String
  name : String
  phone : Option String
  email : Option String
  address : Option String
  isActive : Bool
  totalDebt : Option String
  createdAt : Option String
  deriving Repr, DecidableEq

/-- An optional text field survives rendering only when truthy (present and
nonempty), mirroring the `field && <row>` guards of the card body. -/
def truthyOpt : Option String → Option String
  | some s => if s = "" then none else some s
  | none => none

/-- Rendered customer card: title, activity badge, the shared
delete-button flags, the conditionally rendered contact rows, the debt box
and the raw joined date. -/
structure CardView where
  id : String
  title : String
  statusBadge : String
  deleteDisabled : Bool
  deleteBusy : Bool
  phoneRow : Option String
  emailRow : Option String
  addressRow : Option String
  debtBox : Option DebtBox
  joinedAt : Option String
  deriving Repr, DecidableEq

/-- Translation of the card JSX (lines 200–321): one card per customer; the
delete button is disabled and shows the spinner exactly when the shared
`deleteCustomerMutation.isPending` flag is set. -/
def renderCard (isPending : Bool) (c : Customer) : CardView :=
  { id := c.id
    title := c.name
    statusBadge := if c.isActive then "نشط" else "غير نشط"
    deleteDisabled := isPending
    deleteBusy := isPending
    phoneRow := truthyOpt c.phone
    emailRow := truthyOpt c.email
    addressRow := truthyOpt c.address
    debtBox := renderDebtIndicator c.totalDebt
    joinedAt := c.createdAt }

/-- The three mutually exclusive list states of the main grid. -/
inductive ListRender where
  | loading (skeletonCount : ℕ)
  | empty (message : String) (hasAddAction : Bool)
  | populated (cards : List CardView)
  deriving Repr, DecidableEq

/-- Empty-state message shown when a search term is active. -/
def noMatchMessage : String := "لم يتم العثور على عملاء مطابقين للبحث"

/-- Empty-state message shown when no search term is active. -/
def noCustomersMessage : String := "ابدأ بإضافة عملاء إلى قاعدة البيانات"

/-- JavaScript truthiness of the search string. -/
def strTruthy (s : String) : Bool := !(s == "")

/-- Translation of the main grid render (lines 165–323): loading shows six
skeleton cards; an empty list shows the empty state whose paragraph is the
`search ? ... : ...` ternary, with the add button rendered unconditionally;
otherwise one card is mapped per customer in store order. -/
def renderList (isLoading : Bool) (search : String) (customers : List Customer)
    (isPending : Bool) : ListRender :=
  if isLoading then .loading 6
  else if customers.length == 0 then
    .empty (if strTruthy search then noMatchMessage else noCustomersMessage) true
  else .populated (customers.map (renderCard isPending))

/-! ## Delete mutation: success and error handlers (lines 50–95) -/

/-- Error value reaching `onError`: its optional message text, and whether
the external helper recognises it as an unauthorized error. -/
structure JsError where
  message : Option String
  unauthorized : Bool
  deriving Repr, DecidableEq

/-- Modelled from the spec: `isUnauthorizedError` lives in the external
`authUtils` collaborator, which is not part of this excerpt; the spec only
says authentication failures are a distinguishable condition recognised by
that helper, so the verdict is carried on the error value itself. -/
def isUnauthorizedError (e : JsError) : Bool := e.unauthorized

/-- Whether the needle occurs at the head of the haystack. -/
def charsStartWith : List Char → List Char → Bool
  | [], _ => true
  | _ :: _, [] => false
  | a :: as, b :: bs => a == b && charsStartWith as bs

/-- Whether the needle occurs anywhere in the haystack. -/
def charsContain (needle : List Char) : List Char → Bool
  | [] => needle.isEmpty
  | c :: rest => charsStartWith needle (c :: rest) || charsContain needle rest

/-- Model of `error.message?.includes(needle)`: `false` when the message is
absent, substring containment otherwise. -/
def jsIncludes (message : Option String) (needle : String) : Bool :=
  match message with
  | none => false
  | some s => charsContain needle.data s.data

/-- Observable effects the handlers can produce. -/
inductive Effect where
  | prompt (message : String)
  | deleteRequest (id : String)
  | invalidate (queryKey : List String)
  | toast (title description : String) (destructive : Bool)
  | redirectAfter (delayMs : ℕ) (target : String)
  deriving Repr, DecidableEq

/-- Translation of `onSuccess` (lines 61–67): invalidate the customers list
query, then show the success toast. -/
def deleteOnSuccess : List Effect :=
  [.invalidate ["/api/customers"],
   .toast "تم الحذف" "تم حذف العميل بنجاح" false]

/-- Translation of `onError` (lines 68–94): an unauthorized error shows the
unauthorized toast and schedules the redirect to `/api/login` after 500 ms;
otherwise a single destructive toast is shown whose description is the
not-found message when the text contains `not found`, the database hint when
it contains `Failed to delete customer`, and the generic failure otherwise. -/
def deleteOnError (e : JsError) : List Effect :=
  if isUnauthorizedError e then
    [.toast "غير مصرح" "تم تسجيل خروجك. جارٍ تسجيل الدخول مرة أخرى..." true,
     .redirectAfter 500 "/api/login"]
  else
    [.toast "خطأ في حذف العميل"
      (if jsIncludes e.message "not found" then "العميل غير موجود"
       else if jsIncludes e.message "Failed to delete customer" then
         "خطأ في قاعدة البيانات أثناء حذف العميل"
       else "فشل في حذف العميل") true]

/-- Translation of the mutation function (lines 51–59): a non-ok response
raises an error embedding the status and body text. The `unauthorized` field
records the external helper's verdict on that error (see
`isUnauthorizedError`). -/
def deleteMutationFn (respOk : Bool) (status : ℕ) (body : String) (helperFlag : Bool) :
    Except JsError Unit :=
  if respOk then .ok ()
  else .error ⟨some ("Failed to delete customer: " ++ natRepr status ++ " - " ++ body), helperFlag⟩

/-- Effects of one settled delete mutation: `onSuccess` on fulfilment,
`onError` on rejection. -/
def runDeleteMutation (result : Except JsError Unit) : List Effect :=
  match result with
  | .ok _ => deleteOnSuccess
  | .error e => deleteOnError e

/-- Whether an effect is a toast notification. -/
def isToast : Effect → Bool
  | .toast _ _ _ => true
  | _ => false

/-- Whether an effect is a query invalidation. -/
def isInvalidate : Effect → Bool
  | .invalidate _ => true
  | _ => false

/-- Whether an effect issues a delete request. -/
def isDeleteRequest : Effect → Bool
  | .deleteRequest _ => true
  | _ => false

/-- Number of toast notifications among the effects. -/
def toastCount (effs : List Effect) : ℕ := (effs.filter isToast).length

/-- Number of query invalidations among the effects. -/
def invalidateCount (effs : List Effect) : ℕ := (effs.filter isInvalidate).length

/-! ## Query cache and store (external collaborators, modelled from the
spec: the cache is keyed by query parameters and invalidated by key prefix;
the store owns deletion) -/

/-- Key of the list query for a given search term. -/
def listQueryKey (search : String) : List String := ["/api/customers", search]

/-- Prefix test on query keys, the matching rule of `invalidateQueries`. -/
def keyIsPrefix : List String → List String → Bool
  | [], _ => true
  | _ :: _, [] => false
  | a :: as, b :: bs => a == b && keyIsPrefix as bs

/-- Modelled from the spec: applying one effect to the cached list-query
result; an invalidation whose key prefixes the list query key drops the
cached value, every other effect leaves the cache alone. -/
def applyEffect (search : String) (cache : Option (List Customer)) : Effect →
    Option (List Customer)
  | .invalidate key => if keyIsPrefix key (listQueryKey search) then none else cache
  | _ => cache

/-- Folding a list of effects over the cache. -/
def applyEffects (search : String) (effs : List Effect) (cache : Option (List Customer)) :
    Option (List Customer) :=
  effs.foldl (applyEffect search) cache

/-- Modelled from the spec: reading the list query returns the cached value
when present and refetches from the store otherwise. -/
def readListQuery (store : List Customer) (cache : Option (List Customer)) : List Customer :=
  match cache with
  | some l => l
  | none => store

/-- Modelled from the spec: after a successful `DELETE /api/customers/:id`
the store no longer returns any record with that identifier. -/
def storeDelete (store : List Customer) (id : String) : List Customer :=
  store.filter (fun c => !(c.id == id))

/-! ## Delete workflow state machine (`handleDelete`, lines 97–112) -/

/-- Name shown in the confirmation prompt: the found record's name, falling
back to the generic noun when the record is missing or its name is falsy. -/
def displayNameOf (customers : List Customer) (id : String) : String :=
  match customers.find? (fun c => c.id == id) with
  | some c => if c.name = "" then "هذا العميل" else c.name
  | none => "هذا العميل"

/-- Leading text of the confirmation prompt. -/
def confirmTextBefore : String := "هل أنت متأكد من حذف "

/-- Irreversibility warning of the confirmation prompt. -/
def irreversibleWarning : String := "هذا الإجراء لا يمكن التراجع عنه."

/-- Trailing text of the confirmation prompt. -/
def confirmTextAfter : String := "؟\n\n" ++ irreversibleWarning

/-- Full text passed to `confirm` in `handleDelete`. -/
def confirmMessage (customers : List Customer) (id : String) : String :=
  confirmTextBefore ++ displayNameOf customers id ++ confirmTextAfter

/-- States of one delete action. -/
inductive DeleteState where
  | idle
  | confirming (id : String)
  | deleting (id : String)
  deriving Repr, DecidableEq

/-- Events driving one delete action. -/
inductive DeleteEvent where
  | invoke (id : String)
  | cancel
  | confirm
  | settleOk
  | settleErr (e : JsError)
  deriving Repr, DecidableEq

/-- Delete workflow of `handleDelete` plus the mutation callbacks: invoking
shows the blocking prompt, cancelling returns to idle with no effects,
confirming issues the delete request, and either settlement returns to idle
with the corresponding handler's effects. -/
def deleteStep (customers : List Customer) :
    DeleteState → DeleteEvent → DeleteState × List Effect
  | .idle, .invoke id => (.confirming id, [.prompt (confirmMessage customers id)])
  | .confirming _, .cancel => (.idle, [])
  | .confirming id, .confirm => (.deleting id, [.deleteRequest id])
  | .deleting _, .settleOk => (.idle, deleteOnSuccess)
  | .deleting _, .settleErr e => (.idle, deleteOnError e)
  | s, _ => (s, [])

/-! ## Helper lemmas -/

/-- The empty string parses to `NaN`. -/
lemma parseFloat_empty : parseFloat "" = none := rfl

/-- A digit character is never the decimal point. -/
lemma digitChar_ne_dot (n : ℕ) : digitChar n ≠ '.' := by
  have h : n % 10 < 10 := Nat.mod_lt _ (by norm_num)
  have key : ∀ m, m < 10 → Char.ofNat (48 + m) ≠ '.' := by decide
  simpa [digitChar] using key (n % 10) h

/-- The padded fractional part always has exactly two characters. -/
lemma pad2_length (f : ℕ) : (pad2 f).length = 2 := rfl

/-- The padded fractional part contains no decimal point. -/
lemma pad2_no_dot (f : ℕ) : '.' ∉ (pad2 f).data := by
  simp only [pad2, List.mem_cons, List.not_mem_nil, or_false]
  push_neg
  exact ⟨fun h => digitChar_ne_dot _ h.symm, fun h => digitChar_ne_dot _ h.symm⟩

/-- Every `toFixed2` output has an integer part, a point and two further
point-free characters. -/
lemma toFixed2_hasTwoDecimals (q : ℚ) : hasTwoDecimals (toFixed2 q) := by
  refine ⟨(if q < 0 ∧ (⌊|q| * 100 + 1 / 2⌋).toNat ≠ 0 then "-" else "")
      ++ natRepr ((⌊|q| * 100 + 1 / 2⌋).toNat / 100),
    pad2 ((⌊|q| * 100 + 1 / 2⌋).toNat % 100), rfl, pad2_length _, pad2_no_dot _⟩

/-- Theorem for claim C1: for every debt text, the rendered debt indicator
equals the specification classification of the parsed amount — a red box
with overage notice and two-decimal amount exactly on `parsed >= 5000`, a
yellow box without notice exactly on `0 < parsed < 5000`, and no box when
the text is absent, unparsable, zero or negative; the formatted amount
always carries exactly two decimals, and the concrete customer with debt
text `5200` renders critical with amount `5200.00`. -/
theorem debt_indicator_matches_classification (d : Option String) :
    renderDebtIndicator d = specDebtBox (parsedDebt d)
    ∧ (∀ q : ℚ, hasTwoDecimals (toFixed2 q))
    ∧ renderDebtIndicator (some "5200") =
        some ⟨"bg-red-50 border border-red-200", "text-red-500",
          "text-red-700 font-semibold", "5200.00", true⟩ := by
  refine ⟨?_, toFixed2_hasTwoDecimals, by with_unfolding_all rfl⟩
  cases d with
  | none => rfl
  | some s =>
    by_cases hs : s = ""
    · subst hs; rfl
    · show (if s = "" then none else _) = _
      rw [if_neg hs]
      simp only [parsedDebt, Option.bind]
      cases hq : parseFloat s with
      | none => simp [specDebtBox]
      | some q =>
        simp only [specDebtBox]
        by_cases h5 : 5000 ≤ q
        · have h0 : 0 < q := lt_of_lt_of_le (by norm_num) h5
          simp [h0, h5]
        · by_cases h0 : 0 < q
          · simp [h0, h5]
          · simp [h0, h5]

/-- Theorem for claim C9: the helper `getDebtStatusColor` maps every input
to the red classes exactly when the parsed value is `>= 5000` and to the
yellow classes otherwise — in particular yellow, not "no indicator", for
absent, unparsable, zero and negative inputs — and its output is always one
of the two class strings. -/
theorem getDebtStatusColor_total_classification (d : JsDebtInput) :
    getDebtStatusColor d =
      (match helperParsed d with
       | some q => if 5000 ≤ q then "border-red-500 text-red-500"
          else "border-yellow-500 text-yellow-500"
       | none => "border-yellow-500 text-yellow-500")
    ∧ (getDebtStatusColor d = "border-red-500 text-red-500"
       ∨ getDebtStatusColor d = "border-yellow-500 text-yellow-500") := by
  have h1 : getDebtStatusColor d =
      (match helperParsed d with
       | some q => if 5000 ≤ q then "border-red-500 text-red-500"
          else "border-yellow-500 text-yellow-500"
       | none => "border-yellow-500 text-yellow-500") := by
    cases d with
    | undef => rfl
    | str s =>
      by_cases hs : s = ""
      · subst hs; rfl
      · simp only [getDebtStatusColor, jsFalsyDebt, helperParsed, hs, decide_False,
          Bool.false_eq_true, if_false]
        cases parseFloat s <;> rfl
    | num n =>
      cases n with
      | none => rfl
      | some q =>
        by_cases hq : q = 0
        · subst hq
          have h50 : ¬(5000 : ℚ) ≤ 0 := by norm_num
          simp [getDebtStatusColor, jsFalsyDebt, helperParsed, h50]
        · simp only [getDebtStatusColor, jsFalsyDebt, helperParsed, hq, decide_False,
            Bool.false_eq_true, if_false]
  refine ⟨h1, ?_⟩
  rw [h1]
  cases helperParsed d with
  | none => right; rfl
  | some q =>
    by_cases h : 5000 ≤ q
    · left; simp [h]
    · right; simp [h]

/-- Every error branch surfaces exactly one toast. -/
lemma toastCount_deleteOnError (e : JsError) : toastCount (deleteOnError e) = 1 := by
  unfold deleteOnError
  cases h : isUnauthorizedError e <;> simp [toastCount, isToast]

/-- No error branch invalidates any query. -/
lemma invalidateCount_deleteOnError (e : JsError) : invalidateCount (deleteOnError e) = 0 := by
  unfold deleteOnError
  cases h : isUnauthorizedError e <;> simp [invalidateCount, isInvalidate]

/-- Error-branch effects leave the cached list untouched. -/
lemma applyEffects_deleteOnError (search : String) (e : JsError)
    (cache : Option (List Customer)) :
    applyEffects search (deleteOnError e) cache = cache := by
  unfold deleteOnError
  cases h : isUnauthorizedError e <;> simp [applyEffects, applyEffect]

/-- Theorem for claim C2: the error handler classifies a failed delete with
the claimed priority — an unauthorized error yields the localized
unauthorized toast followed by a redirect to `/api/login` after the fixed
500 ms delay; otherwise an error text containing `not found` yields the
specific customer-not-found description, which differs from the generic
failure message; otherwise a deletion-failed toast is shown whose
description is the database-layer hint exactly when the text matches the
generic delete-failure shape. -/
theorem delete_error_classified_with_priority (e : JsError) :
    deleteOnError e =
      (if isUnauthorizedError e then
        [Effect.toast "غير مصرح" "تم تسجيل خروجك. جارٍ تسجيل الدخول مرة أخرى..." true,
         Effect.redirectAfter 500 "/api/login"]
       else if jsIncludes e.message "not found" then
        [Effect.toast "خطأ في حذف العميل" "العميل غير موجود" true]
       else if jsIncludes e.message "Failed to delete customer" then
        [Effect.toast "خطأ في حذف العميل" "خطأ في قاعدة البيانات أثناء حذف العميل" true]
       else [Effect.toast "خطأ في حذف العميل" "فشل في حذف العميل" true])
    ∧ ("العميل غير موجود" : String) ≠ "فشل في حذف العميل"
    ∧ toastCount (deleteOnError e) = 1 := by
  refine ⟨?_, by decide, toastCount_deleteOnError e⟩
  unfold deleteOnError
  cases h : isUnauthorizedError e
  · simp only [Bool.false_eq_true, if_false]
    cases h2 : jsIncludes e.message "not found" <;>
      cases h3 : jsIncludes e.message "Failed to delete customer" <;> simp
  · simp

/-- Theorem for claim C3: the success handler invalidates the cached list
query whatever the active search and prior cache contents, surfaces exactly
one toast, and the next read of the list query refetches the store's
post-delete list, in which every record's identifier differs from the
deleted one. -/
theorem delete_success_invalidates_and_notifies (store : List Customer) (deletedId : String)
    (search : String) (cache : Option (List Customer)) :
    applyEffects search deleteOnSuccess cache = none
    ∧ toastCount deleteOnSuccess = 1
    ∧ readListQuery (storeDelete store deletedId) (applyEffects search deleteOnSuccess cache)
        = storeDelete store deletedId
    ∧ (readListQuery (storeDelete store deletedId)
        (applyEffects search deleteOnSuccess cache)).all
          (fun c => !(c.id == deletedId)) = true := by
  have hkey : keyIsPrefix ["/api/customers"] (listQueryKey search) = true := by
    simp [keyIsPrefix, listQueryKey]
  have happ : applyEffects search deleteOnSuccess cache = none := by
    simp [applyEffects, deleteOnSuccess, applyEffect, hkey]
  refine ⟨happ, rfl, ?_, ?_⟩
  · rw [happ]; rfl
  · rw [happ]
    show (storeDelete store deletedId).all (fun c => !(c.id == deletedId)) = true
    simp only [storeDelete]
    induction store with
    | nil => rfl
    | cons a t ih =>
      by_cases ha : a.id == deletedId
      · simp [List.filter_cons, ha, ih]
      · simp only [List.filter_cons, ha, Bool.not_false, if_true]
        simp [List.all_cons, ha, ih]

/-- Theorem for claim C4: for any failed delete the error handler surfaces
exactly one toast and performs no invalidation, so the cached list is
unchanged; both settlement events return the workflow to idle; and any
settled mutation — fulfilled or rejected — surfaces exactly one toast. -/
theorem delete_failure_keeps_list_and_notifies_once (customers : List Customer) (id : String)
    (e : JsError) (search : String) (cache : Option (List Customer))
    (result : Except JsError Unit) :
    toastCount (deleteOnError e) = 1
    ∧ invalidateCount (deleteOnError e) = 0
    ∧ applyEffects search (deleteOnError e) cache = cache
    ∧ (deleteStep customers (.deleting id) (.settleErr e)).1 = DeleteState.idle
    ∧ (deleteStep customers (.deleting id) .settleOk).1 = DeleteState.idle
    ∧ toastCount (runDeleteMutation result) = 1 := by
  refine ⟨toastCount_deleteOnError e, invalidateCount_deleteOnError e,
    applyEffects_deleteOnError search e cache, rfl, rfl, ?_⟩
  cases result with
  | ok _ => rfl
  | error e2 => exact toastCount_deleteOnError e2

/-- Cards held by a populated render, empty otherwise. -/
def cardsOf : ListRender → List CardView
  | .populated cards => cards
  | _ => []

/-- Theorem for claim C5: with loading finished and zero records the view
renders the empty state, whose message is the no-match text exactly when a
search term is active and the no-customers-yet text otherwise, together
with the create action; the two messages are distinct. -/
theorem empty_state_message_depends_on_search (search : String) (isPending : Bool) :
    renderList false search [] isPending =
      ListRender.empty (if search = "" then noCustomersMessage else noMatchMessage) true
    ∧ noMatchMessage ≠ noCustomersMessage := by
  constructor
  · by_cases h : search = "" <;> simp [renderList, strTruthy, h]
  · decide

/-- Theorem for claim C10: the empty state always carries the create
action, in particular under an active search term, where the message is the
no-match text. -/
theorem empty_state_always_offers_create (search : String) (isPending : Bool) :
    (∃ message, renderList false search [] isPending = ListRender.empty message true)
    ∧ renderList false "أحمد" [] isPending = ListRender.empty noMatchMessage true := by
  constructor
  · refine ⟨if search = "" then noCustomersMessage else noMatchMessage, ?_⟩
    by_cases h : search = "" <;> simp [renderList, strTruthy, h]
  · simp [renderList, strTruthy]

/-- Theorem for claim C6: invoking delete first shows the blocking prompt,
whose text contains the record's display name — the found record's name, or
the generic noun when the record is missing or its name empty — and the
irreversibility warning; cancelling returns to idle with no effects at all,
so no request is issued and the cached list is untouched. -/
theorem delete_confirmation_workflow (customers : List Customer) (id : String) :
    deleteStep customers DeleteState.idle (DeleteEvent.invoke id)
      = (DeleteState.confirming id, [Effect.prompt (confirmMessage customers id)])
    ∧ (displayNameOf customers id).data <:+: (confirmMessage customers id).data
    ∧ irreversibleWarning.data <:+: (confirmMessage customers id).data
    ∧ (displayNameOf customers id = "هذا العميل"
       ∨ ∃ c, customers.find? (fun c => c.id == id) = some c
            ∧ displayNameOf customers id = c.name ∧ c.name ≠ "")
    ∧ deleteStep customers (DeleteState.confirming id) DeleteEvent.cancel
        = (DeleteState.idle, [])
    ∧ (∀ (search : String) (cache : Option (List Customer)), applyEffects search
        (deleteStep customers (DeleteState.confirming id) DeleteEvent.cancel).2 cache
          = cache) := by
  have hdata : (confirmMessage customers id).data =
      confirmTextBefore.data ++ (displayNameOf customers id).data
        ++ ("؟\n\n".data ++ irreversibleWarning.data) := by
    simp [confirmMessage, confirmTextAfter]
  refine ⟨rfl, ?_, ?_, ?_, rfl, fun _ _ => rfl⟩
  · rw [hdata]
    exact List.infix_append _ _ _
  · rw [hdata]
    refine List.IsSuffix.isInfix ⟨confirmTextBefore.data
      ++ (displayNameOf customers id).data ++ "؟\n\n".data, ?_⟩
    simp
  · unfold displayNameOf
    cases hf : customers.find? (fun c => c.id == id) with
    | none => left; rfl
    | some c =>
      by_cases hn : c.name = ""
      · left; simp [hn]
      · right; exact ⟨c, rfl, by simp [hn], hn⟩

/-- Theorem for claim C7: a nonempty store list renders as the populated
state with exactly one card per record, produced by mapping the card
renderer over the records, so the count and the identifier sequence match
the store's order with no client-side reordering. -/
theorem populated_renders_cards_in_store_order (search : String) (isPending : Bool)
    (c : Customer) (rest : List Customer) :
    renderList false search (c :: rest) isPending
      = ListRender.populated ((c :: rest).map (renderCard isPending))
    ∧ ((c :: rest).map (renderCard isPending)).length = (c :: rest).length
    ∧ ((c :: rest).map (renderCard isPending)).map CardView.id
        = (c :: rest).map Customer.id := by
  refine ⟨by simp [renderList], by simp, ?_⟩
  simp [List.map_map, Function.comp_def, renderCard]

/-- Theorem for claim C8: the pending flag of the delete mutation is shared
by the whole list — with the flag set, every rendered card's delete button
is disabled and shows the busy spinner; with it clear, none is; and in
general every card's flags equal the shared flag. -/
theorem pending_flag_shared_across_cards (customers : List Customer) (search : String)
    (isPending : Bool) :
    ((cardsOf (renderList false search customers true)).all
        (fun card => card.deleteDisabled && card.deleteBusy)) = true
    ∧ ((cardsOf (renderList false search customers false)).all
        (fun card => !card.deleteDisabled && !card.deleteBusy)) = true
    ∧ ((customers.map (renderCard isPending)).all
        (fun card => card.deleteDisabled == isPending && card.deleteBusy == isPending))
      = true := by
  refine ⟨?_, ?_, by simp [List.all_map, Function.comp_def, renderCard]⟩ <;>
    cases customers with
    | nil => rfl
    | cons a t =>
      simp [renderList, cardsOf, List.all_map, Function.comp_def, renderCard]

end Customers
